import Mathlib

/-!
Verification of the Recursive Discovery Controller
(`src/lib/controller/controller.py` of WebScan).

The Python class `Controller` is shallowly embedded: the mutable object
state becomes the structure `Controller`, each method becomes a pure
function returning the updated state, the FIFO `Queue` of directories
becomes a list (enqueue = append at the end), and the `doneDirs` Python
list keeps its list representation.  External effects (terminal output,
`del`, garbage collection) are dropped; everything else follows the
source line by line.
-/

namespace WebScan

/-! ### String primitives

All string operations are routed through `String.toList` so that every
definition reduces in the kernel.  They model the Python string methods
used by the controller. -/

/-- Model of Python `needle is a prefix of hay` on character lists. -/
def leadsChars : List Char → List Char → Bool
  | [], _ => true
  | _ :: _, [] => false
  | a :: as, b :: bs => a == b && leadsChars as bs

/-- Model of Python `str.startswith`. -/
def strStartsWith (s pre : String) : Bool :=
  leadsChars pre.toList s.toList

/-- Model of Python `str.endswith`. -/
def strEndsWith (s suf : String) : Bool :=
  leadsChars suf.toList.reverse s.toList.reverse

/-- Substring test on character lists (Python `needle in hay`). -/
def occursInChars (needle : List Char) : List Char → Bool
  | [] => needle.isEmpty
  | c :: rest => leadsChars needle (c :: rest) || occursInChars needle rest

/-- Model of Python `needle in hay` for strings. -/
def strContains (hay needle : String) : Bool :=
  occursInChars needle.toList hay.toList

/-- Model of Python `s.count("/")`: number of `'/'` characters of `s`. -/
def countSlash (s : String) : Nat :=
  s.toList.count '/'

/-- Model of Python `s[n:]` (slicing is by code point, as is `List.drop`
on `toList`). -/
def strDropN (s : String) (n : Nat) : String :=
  String.mk (s.toList.drop n)

/-- Model of Python `s.rstrip("/")`: remove every trailing `'/'`. -/
def rstripSlashes (s : String) : String :=
  String.mk ((s.toList.reverse.dropWhile (fun ch => ch == '/')).reverse)

/-! ### Model of `urllib.parse.urljoin`

`urllib.parse.urljoin` belongs to the Python standard library, outside
this repository.  The model below implements RFC 3986 reference
resolution restricted to the hierarchical `scheme://authority/path`
URLs without query or fragment that `Controller.add_redirect_directory`
feeds it. -/

/-- Split a character list at each `'/'` (Python `path.split("/")`). -/
def splitSlashAux (acc : List Char) : List Char → List (List Char)
  | [] => [acc.reverse]
  | ch :: rest =>
    if ch == '/' then acc.reverse :: splitSlashAux [] rest
    else splitSlashAux (ch :: acc) rest

/-- RFC 3986 §5.2.4 remove_dot_segments, on the list of path segments
after the leading `'/'` of an absolute path. -/
def rdsSegs (acc : List (List Char)) : List (List Char) → List (List Char)
  | [] => acc.reverse
  | [seg] =>
    if seg = ['.'] then acc.reverse ++ [[]]
    else if seg = ['.', '.'] then (acc.drop 1).reverse ++ [[]]
    else (seg :: acc).reverse
  | seg :: rest =>
    if seg = ['.'] then rdsSegs acc rest
    else if seg = ['.', '.'] then rdsSegs (acc.drop 1) rest
    else rdsSegs (seg :: acc) rest

/-- remove_dot_segments on an absolute path (leading `'/'`). -/
def removeDotSegments : List Char → List Char
  | '/' :: rest => '/' :: List.intercalate ['/'] (rdsSegs [] (splitSlashAux [] rest))
  | p => p

/-- Split `scheme://rest` after the `"://"`; `none` when there is no
scheme separator. -/
def breakScheme (acc : List Char) : List Char → Option (List Char × List Char)
  | [] => none
  | ':' :: '/' :: '/' :: rest => some ((acc.reverse ++ [':', '/', '/']), rest)
  | ch :: rest => breakScheme (ch :: acc) rest

/-- Split the authority from the path (everything from the first `'/'`). -/
def breakPath (acc : List Char) : List Char → List Char × List Char
  | [] => (acc.reverse, [])
  | '/' :: rest => (acc.reverse, '/' :: rest)
  | ch :: rest => breakPath (ch :: acc) rest

/-- Components `(scheme ++ "://" ++ authority, path)` of an absolute URL; a string
with no `"://"` is treated as all path. -/
def parseUrl (u : List Char) : List Char × List Char :=
  match breakScheme [] u with
  | some (schemePre, rest) =>
    let (auth, path) := breakPath [] rest
    (schemePre ++ auth, path)
  | none => ([], u)

/-- Does the reference start with `scheme:` (a `':'` before any `'/'`)? -/
def hasSchemeAux : List Char → Bool
  | [] => false
  | ':' :: _ => true
  | '/' :: _ => false
  | _ :: rest => hasSchemeAux rest

/-- Model of `urllib.parse.urljoin` (Python standard library, external
to the repository), for hierarchical URLs without query or fragment:
an absolute reference passes through, a network-path or absolute-path
reference replaces the corresponding base components, and a relative
reference is merged with the base path directory and dot-normalised. -/
def urljoin (base ref : String) : String :=
  let b := base.toList
  let r := ref.toList
  if r.isEmpty then base
  else if hasSchemeAux r then ref
  else
    let (pre, bpath) := parseUrl b
    match r with
    | '/' :: '/' :: _ => String.mk ((pre.takeWhile (fun ch => ch ≠ '/')) ++ r)
    | '/' :: _ => String.mk (pre ++ removeDotSegments r)
    | _ =>
      let dir := (bpath.reverse.dropWhile (fun ch => ch ≠ '/')).reverse
      let merged := if dir.isEmpty then '/' :: r else dir ++ r
      String.mk (pre ++ removeDotSegments merged)

/-! ### Data model -/

/-- The kind of report sink attached by `setup_reports`
(`SimpleReport`, `JSONReport`, `PlainTextReport` of `lib.reports`). -/
inductive ReportKind where
  | simple
  | json
  | plain
deriving DecidableEq, Repr

/-- State of `lib.core.ReportManager`: recorded `(fullPath, status)`
entries (`add_path`) and the number of `save()` calls. -/
structure ReportManager where
  entries : List (String × Nat)
  saves : Nat
deriving DecidableEq, Repr

/-- A `ReportManager()` freshly constructed (controller.py line 130). -/
def ReportManager.fresh : ReportManager := ⟨[], 0⟩

/-- One HTTP response as seen by the callbacks: raw body bytes
(`path.response.body`), the decoded body (`path.response.body.decode()`)
and the redirect target (`path.response.redirect`, a falsy value being
`none` or `some ""`). -/
structure Response where
  body : List Nat
  bodyDecoded : String
  redirect : Option String

/-- One discovered candidate handed to `match_callback`: the probed
path, the optional HTTP status and the response. -/
structure PathResult where
  path : String
  status : Option Nat
  response : Response

/-- The mutable state of `Controller` restricted to the fields the
verified methods read or write.  `directories` is the FIFO `Queue`
(front of the list = next `get()`), `doneDirs` the list of already
pushed directory prefixes, `connectionErrors` the counter behind
`output.add_connection_error()`, and `errorLogLines` the contents of
the error log file. -/
structure Controller where
  recursive : Bool
  recursive_level_max : Nat
  excludeSubdirs : List String
  excludeStatusCodes : List Nat
  excludeTexts : List String
  excludeRegexps : List (String → Bool)
  suppressEmpty : Bool
  blacklists : List (Nat × List String)
  scanSubdirs : Option (List String)
  autoSave : Bool
  autoSaveFormat : String
  doneDirs : List String
  directories : List String
  currentDirectory : String
  currentUrl : String
  index : Nat
  connectionErrors : Nat
  errorLogLines : List String
  reportManager : ReportManager
  reportOutputs : List ReportKind

/-- Model of `self.blacklists.get(status)` (dict lookup). -/
def blacklistOf (bls : List (Nat × List String)) (st : Nat) : Option (List String) :=
  (bls.find? (fun kv => kv.1 == st)).map (fun kv => kv.2)

/-! ### Frontier pushes (controller.py lines 438-486) -/

/-- Method `Controller.add_directory` (lines 438-461): push
`currentDirectory + path` when `path` names a directory, is not an
excluded subdirectory, was not pushed before, and stays within the
recursion depth limit. -/
def add_directory (c : Controller) (path : String) : Controller × Bool :=
  if c.recursive = false then (c, false)
  else if strEndsWith path "/" = true then
    if path ∈ c.excludeSubdirs.map (fun directory => directory ++ "/") then (c, false)
    else if c.currentDirectory ++ path ∈ c.doneDirs then (c, false)
    else if c.recursive_level_max < countSlash (c.currentDirectory ++ path) then (c, false)
    else
      ({c with directories := c.directories ++ [c.currentDirectory ++ path],
               doneDirs := c.doneDirs ++ [c.currentDirectory ++ path]}, true)
  else (c, false)

/-- The `baseUrl` of `Controller.add_redirect_directory` (line 469):
`self.currentUrl.rstrip("/") + "/" + self.currentDirectory`. -/
def redirectBase (c : Controller) : String :=
  rstripSlashes c.currentUrl ++ "/" ++ c.currentDirectory

/-- The candidate entry of `add_redirect_directory` (line 472):
the resolved URL with the `baseUrl` prefix stripped. -/
def redirectEntry (c : Controller) (redirect : String) : String :=
  strDropN (urljoin (redirectBase c) redirect) (redirectBase c).length

/-- Method `Controller.add_redirect_directory` (lines 463-486): resolve the
redirect target against `baseUrl`; when the resolved URL stays strictly
inside `baseUrl` and names a directory, push the stripped suffix,
subject to the done-set and depth checks. -/
def add_redirect_directory (c : Controller) (redirect : String) : Controller × Bool :=
  if c.recursive = false then (c, false)
  else if strStartsWith (urljoin (redirectBase c) redirect) (redirectBase c) = true ∧
      urljoin (redirectBase c) redirect ≠ redirectBase c ∧
      strEndsWith (urljoin (redirectBase c) redirect) "/" = true then
    if redirectEntry c redirect ∈ c.doneDirs then (c, false)
    else if c.recursive_level_max < countSlash (redirectEntry c redirect) then (c, false)
    else
      ({c with directories := c.directories ++ [redirectEntry c redirect],
               doneDirs := c.doneDirs ++ [redirectEntry c redirect]}, true)
  else (c, false)

/-! ### Result classification (controller.py lines 332-358) -/

/-- Method `Controller.match_callback` (lines 332-358): bump the per-directory
index, then either suppress the result (absent status, excluded status,
blacklisted path, suppressed empty body, excluded body substring,
matching excluded regexp — in that order) or report it: attempt frontier
expansion via `add_redirect_directory` (truthy redirect) or
`add_directory`, record `currentDirectory + path` in the report manager
and save.  Returns the new state and whether the result was reported.
Regexps are modelled as boolean matchers on the decoded body
(`re.search(r, body) is not None`). -/
def match_callback (c : Controller) (p : PathResult) : Controller × Bool :=
  let c := {c with index := c.index + 1}
  match p.status with
  | none => (c, false)
  | some st =>
    if st ∉ c.excludeStatusCodes ∧ p.path ∉ (blacklistOf c.blacklists st).getD [] ∧
        ¬(c.suppressEmpty = true ∧ p.response.body.length = 0) then
      if ∃ t ∈ c.excludeTexts, strContains p.response.bodyDecoded t = true then
        (c, false)
      else if ∃ r ∈ c.excludeRegexps, r p.response.bodyDecoded = true then
        (c, false)
      else
        let c :=
          match p.response.redirect with
          | some r => if r ≠ "" then (add_redirect_directory c r).1
                      else (add_directory c p.path).1
          | none => (add_directory c p.path).1
        let c := {c with reportManager :=
          {entries := c.reportManager.entries ++ [(c.currentDirectory ++ p.path, st)],
           saves := c.reportManager.saves + 1}}
        (c, true)
    else (c, false)

/-! ### The other callbacks (controller.py lines 360-374) -/

/-- Method `Controller.not_found_callback` (lines 360-363): bump the index and
show the last path (display only). -/
def not_found_callback (c : Controller) (path : String) : Controller :=
  let _ := path
  {c with index := c.index + 1}

/-- Method `Controller.error_callback` (lines 365-367): bump the output's
connection-error counter (`self.output.add_connection_error()`). -/
def error_callback (c : Controller) (path errorMsg : String) : Controller :=
  let _ := path
  let _ := errorMsg
  {c with connectionErrors := c.connectionErrors + 1}

/-- The line format of `Controller.append_error_log` (lines 369-374):
`os.linesep` (modelled `"\n"`), then the `time.strftime` stamp `ts`,
then `currentUrl - path - errorMsg`. -/
def errorLogLine (c : Controller) (ts path errorMsg : String) : String :=
  "\n" ++ (ts ++ c.currentUrl ++ " - " ++ path ++ " - " ++ errorMsg)

/-- Method `Controller.append_error_log` (lines 369-374): append one formatted
line to the error log (the timestamp comes from `time.strftime` and is
passed here as `ts`). -/
def append_error_log (c : Controller) (ts path errorMsg : String) : Controller :=
  {c with errorLogLines := c.errorLogLines ++ [errorLogLine c ts path errorMsg]}

/-! ### Per-target setup (controller.py lines 126-166) -/

/-- The frontier seed entries of lines 159-164: the caller-supplied
`scanSubdirs` when given, otherwise the single empty-string entry. -/
def seedsOf (c : Controller) : List String :=
  match c.scanSubdirs with
  | some subs => subs
  | none => [""]

/-- The per-target state mutations of the target loop body
(lines 129-164): a fresh `ReportManager`, the new `currentUrl`, and the
seed entries `put` on the `directories` queue — nothing else is touched
(in particular `doneDirs` is created once in `__init__`, line 60, and
never reset here). -/
def startTarget (c : Controller) (url : String) : Controller :=
  {c with reportManager := ReportManager.fresh,
          currentUrl := url,
          directories := c.directories ++ seedsOf c}

/-! ### Report setup (controller.py lines 269-318) -/

/-- The report chosen by the `autoSaveFormat` checks of
`Controller.setup_reports` (lines 302-312), mirroring the statement
sequence `report = None`; `if fmt == 'simple': report = Simple…`;
`if fmt == 'json': report = JSON… else: report = PlainText…`. -/
def autoSaveReport (fmt : String) : Option ReportKind :=
  let report : Option ReportKind := none
  let report := if fmt = "simple" then some ReportKind.simple else report
  let report := if fmt = "json" then some ReportKind.json else some ReportKind.plain
  report

/-- Method `Controller.setup_reports` restricted to which sinks are attached
(lines 269-318, directory/file bookkeeping elided): with `autoSave` the
report selected by `autoSaveReport` is added to the report manager. -/
def setup_reports (c : Controller) : Controller :=
  if c.autoSave = true then
    {c with reportOutputs :=
      c.reportOutputs ++ (match autoSaveReport c.autoSaveFormat with
                          | some r => [r]
                          | none => [])}
  else c

/-! ### The target loop (controller.py lines 125-197)

The loop's exception flow is embedded as an event trace: each target's
scan terminates in one of five ways (supplied as an oracle, since the
outcomes depend on the network and the operator), exceptions are values
of `Exn`, and the `try`/`except`/`finally` nesting of lines 125-197
becomes explicit propagation. -/

/-- How one target's scan terminates: normally; with a
`RequestException` on the initial `self.requester.request("/")` probe
(line 144, caught at 146 and turned into `SkipTargetInterrupt`); with a
`RequestException` from `self.wait()` (line 177, same conversion); with
an operator `skip target` (`SkipTargetInterrupt` from
`handle_interrupt`, line 408); or with an operator `exit`
(`KeyboardInterrupt`, lines 397/415). -/
inductive TargetOutcome where
  | ok
  | probeFail
  | midScanFail
  | skipOp
  | abortOp
deriving DecidableEq, Repr

/-- The two exception kinds crossing the per-target `try` of line 128:
`SkipTargetInterrupt` and `KeyboardInterrupt`. -/
inductive Exn where
  | skipTarget
  | keyboardInterrupt
deriving DecidableEq, Repr

/-- Observable resource events of the target loop. -/
inductive RunEvent where
  | newReportManager
  | saveReport
  | closeErrorLog
  | closeReportManager
deriving DecidableEq, Repr

/-- The `try` body of one target iteration (lines 129-179): construct a
fresh `ReportManager`, then scan; transport failures are rethrown as
`SkipTargetInterrupt`, an operator abort escapes as
`KeyboardInterrupt`. -/
def targetTryBody (o : TargetOutcome) : List RunEvent × Option Exn :=
  ([RunEvent.newReportManager],
    match o with
    | TargetOutcome.ok => none
    | TargetOutcome.probeFail => some Exn.skipTarget
    | TargetOutcome.midScanFail => some Exn.skipTarget
    | TargetOutcome.skipOp => some Exn.skipTarget
    | TargetOutcome.abortOp => some Exn.keyboardInterrupt)

/-- One full target iteration (lines 128-185): the `finally` of line 184
always runs `reportManager.save()`, and `except SkipTargetInterrupt`
(line 181) swallows the skip and continues the loop. -/
def targetStep (o : TargetOutcome) : List RunEvent × Option Exn :=
  let (evs, exn) := targetTryBody o
  let evs := evs ++ [RunEvent.saveReport]
  match exn with
  | some Exn.skipTarget => (evs, none)
  | e => (evs, e)

/-- The `for url in urlList` loop of line 126: process targets in order,
stopping when an exception escapes a target iteration. -/
def runLoop : List TargetOutcome → List RunEvent × Option Exn
  | [] => ([], none)
  | o :: rest =>
    let (evs, exn) := targetStep o
    match exn with
    | none =>
      let (evs2, e2) := runLoop rest
      (evs ++ evs2, e2)
    | some e => let _ := e; (evs, exn)

/-- The whole run (lines 125-197): the loop, the outer
`except KeyboardInterrupt` (line 187, which exits gracefully), and the
outer `finally` (lines 191-195) closing the error log — guarded by
`if not self.errorLog.closed`, hence exactly once — and the last
report manager. -/
def runTargets (outs : List TargetOutcome) : List RunEvent :=
  (runLoop outs).1 ++ [RunEvent.closeErrorLog, RunEvent.closeReportManager]

/-- Number of targets the loop actually starts: the run continues past
every non-abort outcome and stops after an operator abort. -/
def processedCount : List TargetOutcome → Nat
  | [] => 0
  | o :: rest =>
    if o = TargetOutcome.abortOp then 1 else processedCount rest + 1

/-! ### Concrete instances for witnesses and counterexamples -/

/-- A concrete controller state: recursion enabled, depth limit 2, no
exclusions, scanning `http://h/` at the root directory. -/
def baseCtrl : Controller where
  recursive := true
  recursive_level_max := 2
  excludeSubdirs := []
  excludeStatusCodes := []
  excludeTexts := []
  excludeRegexps := []
  suppressEmpty := false
  blacklists := []
  scanSubdirs := none
  autoSave := false
  autoSaveFormat := "plain"
  doneDirs := []
  directories := []
  currentDirectory := ""
  currentUrl := "http://h/"
  index := 0
  connectionErrors := 0
  errorLogLines := []
  reportManager := ReportManager.fresh
  reportOutputs := []

/-! ### Claims -/

/-- C1: every entry accepted by a push — from `add_directory`
(entry `currentDirectory ++ path`) or `add_redirect_directory` (entry =
the stripped redirect suffix) — has at most `recursive_level_max`
occurrences of `'/'`, and a candidate whose slash count exceeds the
limit is rejected with the state (queue and done-set) unchanged. -/
theorem frontier_push_depth_bound (c : Controller) (path redirect : String) :
    ((add_directory c path).2 = true →
      countSlash (c.currentDirectory ++ path) ≤ c.recursive_level_max ∧
      (add_directory c path).1.directories =
        c.directories ++ [c.currentDirectory ++ path]) ∧
    (c.recursive_level_max < countSlash (c.currentDirectory ++ path) →
      add_directory c path = (c, false)) ∧
    ((add_redirect_directory c redirect).2 = true →
      countSlash (redirectEntry c redirect) ≤ c.recursive_level_max ∧
      (add_redirect_directory c redirect).1.directories =
        c.directories ++ [redirectEntry c redirect]) ∧
    (c.recursive_level_max < countSlash (redirectEntry c redirect) →
      add_redirect_directory c redirect = (c, false)) := by
  unfold add_directory add_redirect_directory redirectEntry redirectBase
  refine ⟨?_, ?_, ?_, ?_⟩ <;>
    · intro h
      split_ifs at h ⊢ <;> simp_all

/-- Witness for C1 at a concrete state: `x/` is accepted at depth 1 ≤ 2,
`a/b/c/` (depth 3) is rejected without mutation, redirect entry `r/` is
accepted, redirect entry `d/e/f/` (depth 3) is rejected. -/
theorem frontier_push_depth_bound_witness :
    (countSlash (baseCtrl.currentDirectory ++ "x/") ≤ baseCtrl.recursive_level_max ∧
      (add_directory baseCtrl "x/").1.directories =
        baseCtrl.directories ++ [baseCtrl.currentDirectory ++ "x/"]) ∧
    add_directory baseCtrl "a/b/c/" = (baseCtrl, false) ∧
    (countSlash (redirectEntry baseCtrl "r/") ≤ baseCtrl.recursive_level_max ∧
      (add_redirect_directory baseCtrl "r/").1.directories =
        baseCtrl.directories ++ [redirectEntry baseCtrl "r/"]) ∧
    add_redirect_directory baseCtrl "d/e/f/" = (baseCtrl, false) :=
  ⟨(frontier_push_depth_bound baseCtrl "x/" "r/").1 (by decide),
   (frontier_push_depth_bound baseCtrl "a/b/c/" "r/").2.1 (by decide),
   (frontier_push_depth_bound baseCtrl "x/" "r/").2.2.1 (by decide),
   (frontier_push_depth_bound baseCtrl "x/" "d/e/f/").2.2.2 (by decide)⟩

/-- Neither frontier push touches the report manager, the current
directory, or the index. -/
theorem add_directory_preserves (c : Controller) (path : String) :
    (add_directory c path).1.reportManager = c.reportManager ∧
    (add_directory c path).1.currentDirectory = c.currentDirectory ∧
    (add_directory c path).1.index = c.index := by
  unfold add_directory
  split_ifs <;> simp

/-- Function `add_redirect_directory` also leaves the report manager, the current
directory and the index unchanged. -/
theorem add_redirect_directory_preserves (c : Controller) (redirect : String) :
    (add_redirect_directory c redirect).1.reportManager = c.reportManager ∧
    (add_redirect_directory c redirect).1.currentDirectory = c.currentDirectory ∧
    (add_redirect_directory c redirect).1.index = c.index := by
  unfold add_redirect_directory
  split_ifs <;> simp

/-- Membership in `Option.getD [] ` spelt with an explicit witness. -/
theorem mem_getD_nil_iff (o : Option (List String)) (x : String) :
    x ∈ o.getD [] ↔ ∃ bl, o = some bl ∧ x ∈ bl := by
  cases o <;> simp

/-- The spec's suppression condition (§4.2 steps 1-6, transcribed from
the spec to be compared with `match_callback`): absent status, excluded
status, blacklisted exact path, suppressed empty body, excluded body
substring, or matching excluded regexp. -/
def suppressedSpec (c : Controller) (p : PathResult) : Prop :=
  p.status = none ∨
  ∃ st, p.status = some st ∧
    (st ∈ c.excludeStatusCodes ∨
     (∃ bl, blacklistOf c.blacklists st = some bl ∧ p.path ∈ bl) ∨
     (c.suppressEmpty = true ∧ p.response.body.length = 0) ∨
     (∃ t ∈ c.excludeTexts, strContains p.response.bodyDecoded t = true) ∨
     (∃ r ∈ c.excludeRegexps, r p.response.bodyDecoded = true))

/-- C2: `match_callback` suppresses a result exactly under the spec's
conditions (and otherwise reports it, recording
`currentDirectory ++ path` in the report manager); a suppressed result
changes nothing but the index; and once the status-level checks
suppress, the outcome is independent of the configured body scanners
(they are evaluated last). -/
theorem match_callback_classification (c : Controller) (p : PathResult) :
    ((match_callback c p).2 = false ↔ suppressedSpec c p) ∧
    ((match_callback c p).2 = false →
      (match_callback c p).1 = {c with index := c.index + 1}) ∧
    ((match_callback c p).2 = true → ∃ st, p.status = some st ∧
      (match_callback c p).1.reportManager.entries =
        c.reportManager.entries ++ [(c.currentDirectory ++ p.path, st)]) ∧
    (∀ st, p.status = some st → st ∈ c.excludeStatusCodes →
      ∀ texts regexps,
        (match_callback {c with excludeTexts := texts, excludeRegexps := regexps} p).2
          = false) := by
  rcases hp : p.status with _ | st
  · refine ⟨?_, ?_, ?_, ?_⟩ <;> simp [match_callback, hp, suppressedSpec]
  · refine ⟨?_, ?_, ?_, ?_⟩
    · simp only [match_callback, hp]
      split_ifs with h1 h2 h3
      · obtain ⟨t, ht, ht2⟩ := h2
        exact ⟨fun _ => Or.inr ⟨st, hp,
          Or.inr (Or.inr (Or.inr (Or.inl ⟨t, ht, ht2⟩)))⟩, fun _ => rfl⟩
      · obtain ⟨r, hr, hr2⟩ := h3
        exact ⟨fun _ => Or.inr ⟨st, hp,
          Or.inr (Or.inr (Or.inr (Or.inr ⟨r, hr, hr2⟩)))⟩, fun _ => rfl⟩
      · obtain ⟨ha, hb, hc⟩ := h1
        constructor
        · intro h; exact absurd h (by simp)
        · rintro (h | ⟨st', hst', habs⟩)
          · rw [hp] at h; cases h
          · rw [hp] at hst'; injection hst' with hst'; subst hst'
            rcases habs with h | h | h | h | h
            · exact absurd h ha
            · exact absurd ((mem_getD_nil_iff _ _).mpr h) hb
            · exact absurd h hc
            · exact absurd h h2
            · exact absurd h h3
      · constructor
        · intro _
          rw [not_and_or, not_and_or] at h1
          rcases h1 with ha | hb | hc
          · exact Or.inr ⟨st, hp, Or.inl (not_not.mp ha)⟩
          · exact Or.inr ⟨st, hp,
              Or.inr (Or.inl ((mem_getD_nil_iff _ _).mp (not_not.mp hb)))⟩
          · exact Or.inr ⟨st, hp, Or.inr (Or.inr (Or.inl (not_not.mp hc)))⟩
        · intro _; rfl
    · simp only [match_callback, hp]
      split_ifs <;> simp
    · simp only [match_callback, hp]
      split_ifs with h1 h2 h3 <;> simp_all
      rcases p.response.redirect with _ | r
      · have := add_directory_preserves {c with index := c.index + 1} p.path
        simp_all
      · by_cases hr : r = ""
        · have := add_directory_preserves {c with index := c.index + 1} p.path
          simp_all
        · have := add_redirect_directory_preserves {c with index := c.index + 1} r
          simp_all
    · intro st' hst' hmem texts regexps
      injection hst' with hst'
      subst hst'
      simp only [match_callback, hp]
      split_ifs with h1 <;> simp_all

/-- Witness for C2: a concrete result with status 403 in the excluded
set is suppressed by the classification theorem. -/
theorem match_callback_classification_witness :
    (match_callback {baseCtrl with excludeStatusCodes := [403]}
      ⟨"admin", some 403, ⟨[120], "x", none⟩⟩).2 = false :=
  (match_callback_classification {baseCtrl with excludeStatusCodes := [403]}
      ⟨"admin", some 403, ⟨[120], "x", none⟩⟩).1.mpr
    (Or.inr ⟨403, rfl, Or.inl (by decide)⟩)

/-- C3: with recursion enabled, `add_redirect_directory` pushes a
frontier entry iff the redirect target resolved against
`currentUrl.rstrip('/') + '/' + currentDirectory` starts with that
base, differs from it, and ends with `'/'` (and survives the done-set
and depth checks); the pushed entry is exactly the resolved URL with
the base prefix stripped, and in every other case the state is
returned unchanged with `false`. -/
theorem add_redirect_directory_resolution (c : Controller) (redirect : String)
    (hrec : c.recursive = true) :
    ((add_redirect_directory c redirect).2 = true ↔
      (strStartsWith (urljoin (redirectBase c) redirect) (redirectBase c) = true ∧
       urljoin (redirectBase c) redirect ≠ redirectBase c ∧
       strEndsWith (urljoin (redirectBase c) redirect) "/" = true ∧
       redirectEntry c redirect ∉ c.doneDirs ∧
       countSlash (redirectEntry c redirect) ≤ c.recursive_level_max)) ∧
    ((add_redirect_directory c redirect).2 = true →
      (add_redirect_directory c redirect).1 =
        {c with directories := c.directories ++ [redirectEntry c redirect],
                doneDirs := c.doneDirs ++ [redirectEntry c redirect]}) ∧
    ((add_redirect_directory c redirect).2 = false →
      (add_redirect_directory c redirect).1 = c) := by
  refine ⟨?_, ?_, ?_⟩ <;>
    · unfold add_redirect_directory
      split_ifs <;> simp_all

/-- Witness for C3: with base `http://h/a/` the redirect target `b/`
resolves to `http://h/a/b/` and is pushed. -/
theorem add_redirect_directory_resolution_witness :
    (add_redirect_directory {baseCtrl with currentDirectory := "a/"} "b/").2 = true :=
  (add_redirect_directory_resolution {baseCtrl with currentDirectory := "a/"} "b/"
    rfl).1.mpr (by decide)

/-- C4, counterexample: redirect resolution performs no
excluded-subdirectory check — with `b` in `excludeSubdirs`, the
redirect target `b/` is still pushed (first sighting, empty done-set),
contradicting the claim that both push paths reject
`excluded_name ++ "/"`. -/
theorem excluded_subdir_redirect_counterexample :
    ({baseCtrl with excludeSubdirs := ["b"]}).excludeSubdirs = ["b"] ∧
    (add_redirect_directory {baseCtrl with excludeSubdirs := ["b"]} "b/").2 = true ∧
    (add_redirect_directory {baseCtrl with excludeSubdirs := ["b"]} "b/").1.directories
      = ["b/"] :=
  ⟨rfl, by decide, by decide⟩

/-- C4 amended: only `add_directory` rejects a candidate equal to
`excluded_name ++ "/"`, and it does so for every done-set (in
particular on first sighting, before the done-set lookup can matter);
`add_redirect_directory` never reads the exclusion list — its outcome,
queue and done-set are unchanged under any replacement of
`excludeSubdirs`. -/
theorem exclusion_check_scope (c : Controller) (path redirect : String)
    (subs : List String)
    (hex : path ∈ c.excludeSubdirs.map (fun s => s ++ "/")) :
    add_directory c path = (c, false) ∧
    (add_redirect_directory {c with excludeSubdirs := subs} redirect).2 =
      (add_redirect_directory c redirect).2 ∧
    (add_redirect_directory {c with excludeSubdirs := subs} redirect).1.directories =
      (add_redirect_directory c redirect).1.directories ∧
    (add_redirect_directory {c with excludeSubdirs := subs} redirect).1.doneDirs =
      (add_redirect_directory c redirect).1.doneDirs := by
  refine ⟨?_, ?_, ?_, ?_⟩
  · unfold add_directory
    split_ifs <;> simp_all
  all_goals
    simp only [add_redirect_directory, redirectEntry, redirectBase]
    split_ifs <;> simp_all

/-- Witness for C4's amended theorem at a concrete state with
`excludeSubdirs = ["b"]` and candidate `b/`. -/
theorem exclusion_check_scope_witness :
    add_directory {baseCtrl with excludeSubdirs := ["b"]} "b/" =
      ({baseCtrl with excludeSubdirs := ["b"]}, false) :=
  (exclusion_check_scope {baseCtrl with excludeSubdirs := ["b"]} "b/" "r/" []
    (by decide)).1

/-- C5, counterexample: `doneDirs` is created once in `__init__` and
survives `startTarget`; a directory recorded while scanning an earlier
target makes the same push for the next target fail, while the push
succeeds when the carried done-set is empty. -/
theorem per_target_reset_counterexample :
    (add_directory (startTarget {baseCtrl with doneDirs := ["admin/"]} "http://t2/")
      "admin/").2 = false ∧
    (add_directory (startTarget baseCtrl "http://t2/") "admin/").2 = true := by
  exact ⟨by decide, by decide⟩

/-- C5 amended: starting a new target recreates the report manager but
keeps the done-set, so a push whose entry was recorded during an
earlier target is rejected. -/
theorem per_target_state_persistence (c : Controller) (url path : String)
    (h : ((startTarget c url).currentDirectory ++ path) ∈ c.doneDirs) :
    (startTarget c url).reportManager = ReportManager.fresh ∧
    (startTarget c url).doneDirs = c.doneDirs ∧
    (add_directory (startTarget c url) path).2 = false := by
  refine ⟨rfl, rfl, ?_⟩
  unfold add_directory
  split_ifs <;> simp_all [startTarget]

/-- Witness for C5's amended theorem with `admin/` carried over in the
done-set. -/
theorem per_target_state_persistence_witness :
    (startTarget {baseCtrl with doneDirs := ["admin/"]} "http://t2/").reportManager
      = ReportManager.fresh ∧
    (startTarget {baseCtrl with doneDirs := ["admin/"]} "http://t2/").doneDirs
      = ({baseCtrl with doneDirs := ["admin/"]} : Controller).doneDirs ∧
    (add_directory (startTarget {baseCtrl with doneDirs := ["admin/"]} "http://t2/")
      "admin/").2 = false :=
  per_target_state_persistence {baseCtrl with doneDirs := ["admin/"]} "http://t2/"
    "admin/" (by decide)

/-- C6, counterexample: with base `http://h/a/` the relative redirect
target `a/` resolves to `http://h/a/a/`, which starts with the base,
differs from it and ends with `/` — so it is accepted and `a/` is
pushed, contradicting the claimed rejection of the self target. -/
theorem redirect_self_accepted_counterexample :
    (add_redirect_directory {baseCtrl with currentDirectory := "a/"} "a/").2 = true ∧
    (add_redirect_directory {baseCtrl with currentDirectory := "a/"} "a/").1.directories
      = ["a/"] := by
  exact ⟨by decide, by decide⟩

/-- C6 amended: with base `http://h/a/`, the redirect target `b/` is
accepted and yields the entry `b/`; `../` is rejected; the relative
target `a/` resolves to `http://h/a/a/` and is accepted with entry
`a/`; only a target resolving to exactly the base — such as the
absolute path `/a/` — is rejected as a self redirect. -/
theorem redirect_acceptance_cases :
    (add_redirect_directory {baseCtrl with currentDirectory := "a/"} "b/").2 = true ∧
    (add_redirect_directory {baseCtrl with currentDirectory := "a/"} "b/").1.directories
      = ["b/"] ∧
    (add_redirect_directory {baseCtrl with currentDirectory := "a/"} "../").2 = false ∧
    (add_redirect_directory {baseCtrl with currentDirectory := "a/"} "../").1.directories
      = [] ∧
    (add_redirect_directory {baseCtrl with currentDirectory := "a/"} "a/").2 = true ∧
    (add_redirect_directory {baseCtrl with currentDirectory := "a/"} "a/").1.doneDirs
      = ["a/"] ∧
    (add_redirect_directory {baseCtrl with currentDirectory := "a/"} "/a/").2 = false := by
  refine ⟨by decide, by decide, by decide, by decide, by decide, by decide, by decide⟩

/-- Event counts of the target loop body: no close event inside the
loop, and one `newReportManager` paired with one `saveReport` for every
target processed before the run stops. -/
theorem runLoop_counts (outs : List TargetOutcome) :
    (runLoop outs).1.count RunEvent.closeErrorLog = 0 ∧
    (runLoop outs).1.count RunEvent.saveReport = processedCount outs ∧
    (runLoop outs).1.count RunEvent.newReportManager = processedCount outs := by
  induction outs with
  | nil => simp [runLoop, processedCount]
  | cons o rest ih =>
    cases o <;> simp_all [runLoop, targetStep, targetTryBody, processedCount]

/-- C7: every per-target failure is contained — each target processed
(up to and including an operator abort) gets exactly one fresh report
manager and exactly one guaranteed `reportManager.save()`, regardless
of how its scan terminated; and the error log is closed exactly once,
at the very end of the run, after the whole loop. -/
theorem per_target_failure_containment (outs : List TargetOutcome) :
    ((runTargets outs).count RunEvent.closeErrorLog = 1 ∧
      ∃ pre, runTargets outs = pre ++ [RunEvent.closeErrorLog,
          RunEvent.closeReportManager] ∧
        pre.count RunEvent.closeErrorLog = 0) ∧
    (runTargets outs).count RunEvent.saveReport = processedCount outs ∧
    (runTargets outs).count RunEvent.newReportManager = processedCount outs := by
  obtain ⟨h0, h1, h2⟩ := runLoop_counts outs
  unfold runTargets
  refine ⟨⟨?_, ⟨(runLoop outs).1, rfl, h0⟩⟩, ?_, ?_⟩ <;>
    simp [List.count_append, h0, h1, h2]

/-- C8, counterexample: `error_callback` does not advance the shared
progress counter `index` — at a concrete state with `index = 0` the
counter stays 0 instead of becoming 1. -/
theorem error_callback_counterexample :
    ¬ ((error_callback baseCtrl "p" "m").index = baseCtrl.index + 1) := by
  decide

/-- C8 amended: a not-found callback advances the shared progress
counter; an error callback leaves it unchanged and instead increments
the connection-error display counter; the error-log callback appends
one formatted line to the error log and also leaves the index
unchanged. -/
theorem callback_counter_semantics (c : Controller) (path errorMsg ts : String) :
    (not_found_callback c path).index = c.index + 1 ∧
    (error_callback c path errorMsg).index = c.index ∧
    (error_callback c path errorMsg).connectionErrors = c.connectionErrors + 1 ∧
    (append_error_log c ts path errorMsg).errorLogLines =
      c.errorLogLines ++ [errorLogLine c ts path errorMsg] ∧
    (append_error_log c ts path errorMsg).index = c.index :=
  ⟨rfl, rfl, rfl, rfl, rfl⟩

/-- Appending the empty string on the left is the identity. -/
theorem string_nil_append (s : String) : "" ++ s = s := by
  cases s
  rfl

/-- C9: the frontier seeds of a new target (the caller-supplied scan
subdirectories, else the single empty entry) are enqueued directly —
no depth check, no exclusion check, no done-set insertion — so a seeded
subdirectory rediscovered by `add_directory` during the scan is
enqueued a second time. -/
theorem frontier_seeding_unchecked (c : Controller) (url s : String) :
    (startTarget c url).directories = c.directories ++ seedsOf c ∧
    (startTarget c url).doneDirs = c.doneDirs ∧
    (s ∈ seedsOf c → c.currentDirectory = "" → c.recursive = true →
      strEndsWith s "/" = true →
      s ∉ c.excludeSubdirs.map (fun x => x ++ "/") →
      s ∉ c.doneDirs → countSlash s ≤ c.recursive_level_max →
      2 ≤ ((add_directory (startTarget c url) s).1.directories.count s)) := by
  refine ⟨rfl, rfl, ?_⟩
  intro hs hcd hrec hend hex hdone hdepth
  have hcount : 0 < (seedsOf c).count s := List.count_pos_iff.mpr hs
  unfold add_directory
  split_ifs with h1 h2 h3 h4
  · exact absurd h1 (by simp [startTarget, hrec])
  · exact absurd (by simpa [startTarget] using h2) hex
  · exact absurd (by simpa [startTarget, hcd, string_nil_append] using h3) hdone
  · have h4' : c.recursive_level_max < countSlash s := by
      simpa [startTarget, hcd, string_nil_append] using h4
    omega
  · simp only [startTarget]
    simp [List.count_append, hcd, string_nil_append]
    omega

/-- Witness for C9: scanning with seed list `["x/"]` enqueues `x/`
unchecked, and its rediscovery enqueues it a second time. -/
theorem frontier_seeding_unchecked_witness :
    (startTarget {baseCtrl with scanSubdirs := some ["x/"]} "http://h/").directories =
      ({baseCtrl with scanSubdirs := some ["x/"]} : Controller).directories ++
        seedsOf {baseCtrl with scanSubdirs := some ["x/"]} ∧
    (startTarget {baseCtrl with scanSubdirs := some ["x/"]} "http://h/").doneDirs =
      ({baseCtrl with scanSubdirs := some ["x/"]} : Controller).doneDirs ∧
    2 ≤ ((add_directory
        (startTarget {baseCtrl with scanSubdirs := some ["x/"]} "http://h/")
        "x/").1.directories.count "x/") := by
  obtain ⟨h1, h2, h3⟩ :=
    frontier_seeding_unchecked {baseCtrl with scanSubdirs := some ["x/"]} "http://h/" "x/"
  exact ⟨h1, h2, h3 (by decide) rfl rfl (by decide) (by decide) (by decide) (by decide)⟩

/-- C10: with `autoSave` enabled and `autoSaveFormat = 'simple'`, the
sink attached by `setup_reports` is a plain-text report — the
`SimpleReport` assigned by the first format check is unconditionally
overwritten by the `else` branch of the following `json` check. -/
theorem autosave_simple_attaches_plaintext (c : Controller)
    (hauto : c.autoSave = true) (hfmt : c.autoSaveFormat = "simple") :
    (setup_reports c).reportOutputs = c.reportOutputs ++ [ReportKind.plain] ∧
    ReportKind.plain ≠ ReportKind.simple := by
  refine ⟨?_, by decide⟩
  unfold setup_reports
  rw [hfmt]
  rw [if_pos hauto]
  rw [show autoSaveReport "simple" = some ReportKind.plain from by decide]

/-- Witness for C10 at a concrete state with
`autoSaveFormat = "simple"`. -/
theorem autosave_simple_attaches_plaintext_witness :
    (setup_reports {baseCtrl with autoSave := true, autoSaveFormat := "simple"}).reportOutputs
      = ({baseCtrl with autoSave := true, autoSaveFormat := "simple"} : Controller).reportOutputs ++
          [ReportKind.plain] ∧
    ReportKind.plain ≠ ReportKind.simple :=
  autosave_simple_attaches_plaintext
    {baseCtrl with autoSave := true, autoSaveFormat := "simple"} rfl rfl

end WebScan
